import Mathlib

/-!
Shallow embedding of the verification-code lifecycle and multi-step
authentication flow of the ts-accounts-module repository.

Conventions of the embedding:
- Machine time (Date.now()) is passed explicitly as a natural number `now`.
  Within one invocation the source may call Date.now() several times; the
  calls happen within the same request and we model them as one instant.
- Byte buffers (code secrets, digests) are `List Nat`.  The hex encoding
  performed by Buffer.toString("hex") / Buffer.from(s, "hex") is a bijection
  on byte buffers, so a raw code travelling through the API as a hex string
  is represented by its byte buffer directly.
- SHA-256 is an external primitive; every definition that hashes takes it as
  an explicit function argument `sha256 : List Nat → List Nat`.
- Randomness (randomBytes, uuid.v4) is likewise injected: the random values
  an invocation draws are explicit arguments.
- Fallible code returns `Except Err α`; a thrown http-error is an `Err`
  value.  Database writes thread an explicit `Db` state.  An error is always
  raised before the writes of the failing function, so the error branch
  carries no state.
-/

namespace AccountsModule

/-- Database row for a user (table `users`, src/src/Types.ts UserAttributes).
The source column named "2fa" is rendered `twofa`. -/
structure User where
  id : String
  name : String
  passwordHash : Option String
  banned : Nat
  loginMethod : String
  twofa : Nat
  createdMs : Nat
deriving Repr, DecidableEq

/-- Database row for a login email (table `login-emails`). -/
structure LoginEmail where
  email : String
  userId : String
  verifiedMs : Option Nat
  createdMs : Nat
deriving Repr, DecidableEq

/-- Database row for a verification code (table `verification-codes`,
src/src/Types.ts VerificationCodeAttributes). -/
structure VerificationCode where
  codeSha256 : List Nat
  type : String
  email : String
  userGeneratedToken : Option String
  createdMs : Nat
  expiresMs : Nat
  consumedMs : Option Nat
  invalidatedMs : Option Nat
deriving Repr, DecidableEq

/-- Database row for a session (table `sessions`).  The `ip` column is
declared `string` in the source, but the password-step call site can pass the
possibly-undefined user agent into this position (see processPasswordStep),
so the embedding gives it `Option String`. -/
structure Session where
  id : String
  userAgent : Option String
  ip : Option String
  userId : String
  refreshTokenSha256 : List Nat
  invalidatedMs : Option Nat
  createdMs : Nat
  expiresMs : Nat
deriving Repr, DecidableEq

/-- Database row for a session token (table `session-tokens`). -/
structure SessionToken where
  tokenSha256 : List Nat
  sessionId : String
  createdMs : Nat
  expiresMs : Nat
deriving Repr, DecidableEq

/-- The database state the storage layer (src/src/Io.ts) reads and writes. -/
structure Db where
  users : List User
  loginEmails : List LoginEmail
  codes : List VerificationCode
  sessions : List Session
  sessionTokens : List SessionToken
deriving Repr, DecidableEq

/-- Errors thrown by the code under consideration, from the
openfinanceio http-errors taxonomy.  badRequest carries message and subcode. -/
inductive Err where
  | notFound (msg : String)
  | unauthorized (msg : String)
  | badRequest (msg : String) (subcode : String)
  | duplicateResource (msg : String)
  | notImplemented (msg : String)
deriving Repr, DecidableEq

/-- Result of an authentication step (src/src/Types.ts Auth.Api.Authn
Response = Step | Session).  The constructor encodes the discriminant field
t: `step` is tagged "step" and carries the step name, the raw code and the
state token; `session` is tagged "session" and carries the raw access token
and the raw refresh token — those are its only fields. -/
inductive AuthnResponse where
  | step (stepName : String) (code : List Nat) (state : String)
  | session (token : List Nat) (refresh : List Nat)
deriving Repr, DecidableEq

/-- Embedding of Io.getUserByEmail without throwing (src/src/Io.ts lines
86-119): the SQL join of `users` with `login-emails` on userId filtered by
email; rows[0] is the first match.  The read-through cache wrapper is
semantically a pass-through for a coherent cache and is not modelled. -/
def getUserByEmail (db : Db) (email : String) : Option (User × LoginEmail) :=
  match db.loginEmails.find? (fun e => e.email == email) with
  | none => none
  | some le => (db.users.find? (fun u => u.id == le.userId)).map (fun u => (u, le))

/-- Embedding of Io.getUserByEmail with thrw = true: missing user raises
NotFound with a message that embeds the email (src/src/Io.ts line 115). -/
def getUserByEmailThrw (db : Db) (email : String) : Except Err (User × LoginEmail) :=
  match getUserByEmail db email with
  | none => .error (.notFound ("No users with email " ++ email ++ " exist in our system. Try signing up."))
  | some r => .ok r

/-- Embedding of Io.invalidateVerificationCodesFor (src/src/Io.ts lines
174-184): UPDATE `verification-codes` SET invalidatedMs = now WHERE type
matches AND email matches AND invalidatedMs IS NULL AND consumedMs IS NULL. -/
def invalidateVerificationCodesFor (db : Db) (now : Nat) (type email : String) : Db :=
  { db with codes := db.codes.map (fun v =>
      if v.type == type && v.email == email && v.invalidatedMs == none && v.consumedMs == none
      then { v with invalidatedMs := some now } else v) }

/-- Embedding of Io.saveVerificationCode (src/src/Io.ts lines 189-211): a
plain INSERT of the record. -/
def saveVerificationCode (db : Db) (v : VerificationCode) : Db :=
  { db with codes := db.codes ++ [v] }

/-- Read phase of Io.consumeVerificationCode (src/src/Io.ts lines 257-284):
getVerificationByCode with thrw = true (SELECT by digest of the raw code,
CODE-NOT-FOUND when absent), then the four validation checks in source
order: consumed, invalidated, expired, caller-state mismatch. -/
def consumeChecks (sha256 : List Nat → List Nat) (db : Db) (now : Nat)
    (code : List Nat) (userGeneratedToken : Option String) :
    Except Err VerificationCode :=
  let codeSha256 := sha256 code
  match db.codes.find? (fun v => v.codeSha256 == codeSha256) with
  | none => .error (.badRequest "The verification code you\x27ve provided doesn\x27t exist." "CODE-NOT-FOUND")
  | some verification =>
    if verification.consumedMs ≠ none then
      .error (.badRequest "This verification code has already been consumed! You don\x27t need to do anything else." "CODE_CONSUMED")
    else if verification.invalidatedMs ≠ none then
      .error (.badRequest "This verification code has been invalidated. Please try requesting another email." "RESEND")
    else if verification.expiresMs < now then
      .error (.badRequest "This verification code has expired. Please try requesting another email." "RESEND")
    else if verification.userGeneratedToken ≠ userGeneratedToken then
      .error (.badRequest "The state parameter you\x27ve passed does not match with the one used when creating this authentication code. Please try again." "RESEND")
    else
      .ok verification

/-- Write phase of Io.consumeVerificationCode (src/src/Io.ts lines 287-290):
UPDATE `verification-codes` SET consumedMs = now WHERE codeSha256 = digest.
Note that the WHERE clause tests only the digest: it is not conditioned on
the row still being unconsumed. -/
def consumeWrite (db : Db) (now : Nat) (digest : List Nat) : Db :=
  { db with codes := db.codes.map (fun v =>
      if v.codeSha256 == digest then { v with consumedMs := some now } else v) }

/-- Embedding of Io.consumeVerificationCode run to completion in isolation
(src/src/Io.ts lines 252-293): read phase then write phase; returns the
pre-consumption record as read. -/
def consumeVerificationCode (sha256 : List Nat → List Nat) (db : Db) (now : Nat)
    (code : List Nat) (userGeneratedToken : Option String) :
    Except Err (VerificationCode × Db) :=
  match consumeChecks sha256 db now code userGeneratedToken with
  | .error e => .error e
  | .ok v => .ok (v, consumeWrite db now v.codeSha256)

/-- Two invocations of consumeVerificationCode for the same raw code whose
read phases both complete before either write phase runs.  The await between
the SELECT (getVerificationByCode) and the UPDATE in the source is a genuine
suspension point, so this interleaving is reachable under the concurrency
model of the spec.  Returns both results and the final database. -/
def consumeTwoInterleaved (sha256 : List Nat → List Nat) (db : Db)
    (now1 now2 : Nat) (code : List Nat) (userGeneratedToken : Option String) :
    Except Err VerificationCode × Except Err VerificationCode × Db :=
  let r1 := consumeChecks sha256 db now1 code userGeneratedToken
  let r2 := consumeChecks sha256 db now2 code userGeneratedToken
  let db1 := match r1 with
    | .ok v => consumeWrite db now1 v.codeSha256
    | .error _ => db
  let db2 := match r2 with
    | .ok v => consumeWrite db1 now2 v.codeSha256
    | .error _ => db1
  (r1, r2, db2)

/-- Configuration surface (src/src/Types.ts AccountsModuleConfig.expires). -/
structure AccountsModuleConfig where
  sessionHour : Nat
  sessionTokenMin : Nat
  verificationCodeMin : Nat
  loginCodeMin : Nat
deriving Repr, DecidableEq

/-- Embedding of Lib.generateVerificationCode (src/unnamed/part_000 lines
125-156): draws 32 random bytes (injected here as codeBytes), digests them,
persists a fresh record with consumedMs and invalidatedMs null via
saveVerificationCode, and returns the raw code alongside the record. -/
def generateVerificationCode (sha256 : List Nat → List Nat) (codeBytes : List Nat)
    (db : Db) (now : Nat) (type email : String) (userGeneratedToken : Option String)
    (expiresMs : Nat) : (VerificationCode × List Nat) × Db :=
  let verification : VerificationCode :=
    { codeSha256 := sha256 codeBytes
      type := type
      email := email
      userGeneratedToken := userGeneratedToken
      createdMs := now
      expiresMs := expiresMs
      consumedMs := none
      invalidatedMs := none }
  ((verification, codeBytes), saveVerificationCode db verification)

/-- JavaScript expression `userAgent || null` over string-or-undefined: both
undefined and the empty string are falsy and become null. -/
def jsOrNull : Option String → Option String
  | none => none
  | some s => if s == "" then none else some s

/-- Random values one generateSession invocation draws: the two independent
randomBytes(32) results (refresh secret and access secret) and the uuid.v4
session id. -/
structure SessionRand where
  refreshToken : List Nat
  sessionToken : List Nat
  sessionId : String
deriving Repr, DecidableEq

/-- Embedding of Lib.generateSession (src/unnamed/part_000 lines 161-204):
inserts a Session row keyed by the sha256 digest of the refresh secret with
an expiry of now plus sessionHour hours, inserts a SessionToken row keyed by
the sha256 digest of the access secret with an expiry of now plus
sessionTokenMin minutes linked to the session id, and returns the response
object tagged "session" carrying the two raw secrets. -/
def generateSession (sha256 : List Nat → List Nat) (rand : SessionRand)
    (cfg : AccountsModuleConfig) (db : Db) (now : Nat)
    (userId : String) (userAgent : Option String) (ip : Option String) :
    AuthnResponse × Db :=
  let session : Session :=
    { id := rand.sessionId
      userAgent := jsOrNull userAgent
      ip := ip
      userId := userId
      refreshTokenSha256 := sha256 rand.refreshToken
      invalidatedMs := none
      createdMs := now
      expiresMs := now + 1000 * 60 * 60 * cfg.sessionHour }
  let token : SessionToken :=
    { tokenSha256 := sha256 rand.sessionToken
      sessionId := session.id
      createdMs := now
      expiresMs := now + 1000 * 60 * cfg.sessionTokenMin }
  (.session rand.sessionToken rand.refreshToken,
   { db with
      sessions := db.sessions ++ [session]
      sessionTokens := db.sessionTokens ++ [token] })

/-- Embedding of Lib.sendLoginOrVerCodeEmail (src/unnamed/part_000 lines
206-236): looks up the user (throwing NotFound when absent) concurrently
with invalidating the outstanding codes of the type and email — the two are
independent, so the concurrent pair is modelled by running both — then
persists a replacement code via generateVerificationCode.  Building the
verification link and sending the email touch no modelled state. -/
def sendLoginOrVerCodeEmail (sha256 : List Nat → List Nat) (codeBytes : List Nat)
    (db : Db) (now : Nat) (email type : String) (userGeneratedToken : Option String)
    (expiresMs : Nat) : Except Err ((VerificationCode × List Nat) × Db) :=
  match getUserByEmail db email with
  | none => .error (.notFound ("No users with email " ++ email ++ " exist in our system. Try signing up."))
  | some _ =>
    let db1 := invalidateVerificationCodesFor db now type email
    .ok (generateVerificationCode sha256 codeBytes db1 now type email userGeneratedToken expiresMs)

/-- Entry of the time-bounded key-to-bool cache collaborator. -/
structure CacheEntry where
  key : String
  value : Bool
  expiresMs : Nat
deriving Repr, DecidableEq

/-- State of the cache collaborator. -/
abbrev Cache : Type := List CacheEntry

/-- Modelled from the spec: the cache collaborator (the openfinanceio cache
package, not part of src/) with contract "get(key, computeFn, ttlMs):
get-or-compute-and-store semantics" — a live entry for the key is returned
as is; otherwise the computed value is stored under the key with expiry
now plus ttlMs and returned. -/
def cacheGet (cache : Cache) (now : Nat) (key : String) (computed : Bool)
    (ttlMs : Nat) : Bool × Cache :=
  match List.find? (fun e => e.key == key && decide (now < e.expiresMs)) cache with
  | some e => (e.value, cache)
  | none => (computed, List.cons { key := key, value := computed, expiresMs := now + ttlMs } cache)

/-- JavaScript string interpolation of a string-or-null value: null renders
as the four characters "null". -/
def jsStr : Option String → String
  | none => "null"
  | some s => s

/-- Cache key built by compareSecret (src/src/Modules/Authn.ts line 157):
the literal template of secret and stored hash joined by a colon. -/
def compareSecretKey (secret secretHash : Option String) : String :=
  jsStr secret ++ ":" ++ jsStr secretHash

/-- JavaScript truthiness test `!x` for a string-or-null value: null,
undefined and the empty string are falsy. -/
def jsFalsy : Option String → Bool
  | none => true
  | some s => s == ""

/-- Compute branch of compareSecret (src/src/Modules/Authn.ts lines
160-175): a falsy secret or stored hash yields false; otherwise the bcrypt
comparison runs, and a rejection (malformed or corrupt digest) is caught,
logged and turned into false.  The bcrypt primitive is injected as a
function that may fail with a message. -/
def compareSecretCompute (bcrypt : String → String → Except String Bool)
    (secret secretHash : Option String) : Bool :=
  if jsFalsy secret || jsFalsy secretHash then false
  else
    match bcrypt (secret.getD "") (secretHash.getD "") with
    | .ok b => b
    | .error _ => false

/-- Embedding of compareSecret (src/src/Modules/Authn.ts lines 152-179):
the boolean result is obtained through the cache collaborator under the
literal key of secret and hash with a ttl of 300000 ms. -/
def compareSecret (bcrypt : String → String → Except String Bool)
    (cache : Cache) (now : Nat) (secret secretHash : Option String) :
    Bool × Cache :=
  cacheGet cache now (compareSecretKey secret secretHash)
    (compareSecretCompute bcrypt secret secretHash) 300000

/-- Random values one flow step may draw: the 32 code bytes for a possible
second-factor challenge and the session randomness for a possible session. -/
structure FlowRand where
  codeBytes : List Nat
  sess : SessionRand
deriving Repr, DecidableEq

/-- Embedding of processPasswordStep (src/src/Modules/Authn.ts lines
93-146): load the user by email with thrw = true, compare the supplied
password against the stored hash, raise Unauthorized on failure; with the
second factor enabled mint a login code expiring in loginCodeMin minutes
and answer with a totp step; otherwise issue a session.  The source call at
line 137 is generateSession(user.id, ip, userAgent, r): the ip is passed in
the userAgent position and the userAgent in the ip position. -/
def processPasswordStep (sha256 : List Nat → List Nat)
    (bcrypt : String → String → Except String Bool) (rand : FlowRand)
    (cfg : AccountsModuleConfig) (db : Db) (cache : Cache) (now : Nat)
    (email password userGeneratedToken : String) (userAgent : Option String)
    (ip : String) : Except Err (AuthnResponse × Db × Cache) :=
  match getUserByEmailThrw db email with
  | .error e => .error e
  | .ok (user, _) =>
    let (success, cache1) := compareSecret bcrypt cache now (some password) user.passwordHash
    if !success then
      .error (.unauthorized "The password you\x27ve supplied is not correct.")
    else if user.twofa == 1 then
      let ((_, code), db1) := generateVerificationCode sha256 rand.codeBytes db now
        "login" email (some userGeneratedToken) (now + 1000 * 60 * cfg.loginCodeMin)
      .ok (.step "totp" code userGeneratedToken, db1, cache1)
    else
      let (resp, db1) := generateSession sha256 rand.sess cfg db now user.id (some ip) userAgent
      .ok (resp, db1, cache1)

/-- Embedding of processCodeStep (src/src/Modules/Authn.ts lines 33-90):
consume the code, load the user owning the email the code was issued for
with thrw = true; with the second factor enabled mint a fresh login code
and answer with a totp step; otherwise issue a session with the caller
supplied user agent and ip (generateSession(user.id, userAgent, ip, r)). -/
def processCodeStep (sha256 : List Nat → List Nat) (rand : FlowRand)
    (cfg : AccountsModuleConfig) (db : Db) (now : Nat)
    (code : List Nat) (userGeneratedToken : String) (userAgent : Option String)
    (ip : String) : Except Err (AuthnResponse × Db) :=
  match consumeVerificationCode sha256 db now code (some userGeneratedToken) with
  | .error e => .error e
  | .ok (verification, db1) =>
    match getUserByEmailThrw db1 verification.email with
    | .error e => .error e
    | .ok (user, _) =>
      if user.twofa == 1 then
        let ((_, newCode), db2) := generateVerificationCode sha256 rand.codeBytes db1 now
          "login" verification.email (some userGeneratedToken)
          (now + 1000 * 60 * cfg.loginCodeMin)
        .ok (.step "totp" newCode userGeneratedToken, db2)
      else
        let (resp, db2) := generateSession sha256 rand.sess cfg db1 now user.id userAgent (some ip)
        .ok (resp, db2)

/-- Validity of a verification code at an instant, as the spec defines it:
not consumed, not invalidated, not expired (expiry is the read-time test
expiresMs lower than now used by consumeVerificationCode). -/
def isValidCode (now : Nat) (v : VerificationCode) : Bool :=
  v.consumedMs == none && v.invalidatedMs == none && !(v.expiresMs < now)

/-- Number of simultaneously valid codes of one type and email pair. -/
def countValid (db : Db) (now : Nat) (type email : String) : Nat :=
  (db.codes.filter (fun v => v.type == type && v.email == email && isValidCode now v)).length

deriving instance DecidableEq for Except

/-- Concrete injective stand-in for the SHA-256 primitive, used by witnesses
and counterexamples. -/
def shaFx : List Nat → List Nat := fun b => 7 :: b

/-- Concrete stand-in for bcrypt.compare: accepts exactly the pair of the
password "pw" against the stored digest "H". -/
def bcryptFx : String → String → Except String Bool :=
  fun s h => .ok (s == "pw" && h == "H")

/-- Concrete user with the second factor disabled. -/
def aliceFx : User := ⟨"u1", "Alice", some "H", 0, "password", 0, 0⟩

/-- Concrete user with the second factor enabled. -/
def bobFx : User := ⟨"u2", "Bob", some "H", 0, "password", 1, 0⟩

/-- Concrete passwordless user: the stored password hash is null. -/
def carolFx : User := ⟨"u3", "Carol", none, 0, "email", 0, 0⟩

/-- Login email owned by aliceFx. -/
def aliceEmailFx : LoginEmail := ⟨"a@b.com", "u1", none, 0⟩

/-- Login email owned by bobFx. -/
def bobEmailFx : LoginEmail := ⟨"b@b.com", "u2", none, 0⟩

/-- Login email owned by carolFx. -/
def carolEmailFx : LoginEmail := ⟨"c@b.com", "u3", none, 0⟩

/-- Outstanding valid login code issued to aliceFx for the raw secret
bytes [1, 2] and caller state "st". -/
def aliceCodeFx : VerificationCode :=
  ⟨shaFx [1, 2], "login", "a@b.com", some "st", 0, 1000, none, none⟩

/-- Outstanding valid login code issued to bobFx for the raw secret
bytes [1, 2] and caller state "st". -/
def bobCodeFx : VerificationCode :=
  ⟨shaFx [1, 2], "login", "b@b.com", some "st", 0, 1000, none, none⟩

/-- Concrete configuration: sessions last 2 hours, session tokens 20
minutes, verification codes 20 minutes, login codes 10 minutes. -/
def cfgFx : AccountsModuleConfig := ⟨2, 20, 20, 10⟩

/-- Concrete randomness for one flow invocation. -/
def randFx : FlowRand := ⟨[9, 9], ⟨[3, 3], [4, 4], "sid"⟩⟩

/-- Database with aliceFx and her outstanding login code. -/
def dbAliceFx : Db := ⟨[aliceFx], [aliceEmailFx], [aliceCodeFx], [], []⟩

/-- Database with aliceFx and no outstanding code. -/
def dbAlicePwFx : Db := ⟨[aliceFx], [aliceEmailFx], [], [], []⟩

/-- Database with bobFx (second factor enabled) and his outstanding login
code. -/
def dbBobFx : Db := ⟨[bobFx], [bobEmailFx], [bobCodeFx], [], []⟩

/-- Database with carolFx (null password hash) and no outstanding code. -/
def dbCarolFx : Db := ⟨[carolFx], [carolEmailFx], [], [], []⟩

/-- Discriminates a successful Except result. -/
def exceptIsOk : Except Err α → Bool
  | .ok _ => true
  | .error _ => false

/-- Response component of a code-step result, when it succeeded. -/
def respOfCodeStep : Except Err (AuthnResponse × Db) → Option AuthnResponse
  | .ok (resp, _) => some resp
  | .error _ => none

/-- Database component of a password-step result, with a fallback for the
failure case. -/
def dbOfPasswordStep : Except Err (AuthnResponse × Db × Cache) → Db → Db
  | .ok (_, db, _), _ => db
  | .error _, fallback => fallback

/-- C2: the claim says the storage update that sets consumedMs is
conditioned on the code still being unconsumed, so of two redemption
attempts for the same raw secret — including concurrent ones — exactly one
succeeds and the other observes CODE_CONSUMED.  The source UPDATE
(src/src/Io.ts line 287) has no such condition: its WHERE clause tests only
the digest.  Evaluating the code at the failing input — two attempts for
the same raw secret whose read phases both run before either write — shows
both attempts succeed. -/
theorem consume_race_double_success :
    (consumeTwoInterleaved shaFx dbAliceFx 5 6 [1, 2] (some "st")).1 = .ok aliceCodeFx
    ∧ (consumeTwoInterleaved shaFx dbAliceFx 5 6 [1, 2] (some "st")).2.1 = .ok aliceCodeFx := by
  decide

/-- C5: evaluating the password step at its failing input.  With the second
factor disabled and the correct password, the flow does proceed directly to
session issuance and mints no verification code; but because the source
call site (src/src/Modules/Authn.ts line 137) passes the arguments to
generateSession in the order (user.id, ip, userAgent), the persisted
Session row carries the caller ip "1.2.3.4" in its userAgent field and the
caller user agent "UA" in its ip field — the reverse of the claim. -/
theorem passwordStep_session_fields_swapped :
    processPasswordStep shaFx bcryptFx randFx cfgFx dbAlicePwFx [] 5
      "a@b.com" "pw" "st" (some "UA") "1.2.3.4" =
    .ok (.session [4, 4] [3, 3],
      ⟨[aliceFx], [aliceEmailFx], [],
        [⟨"sid", some "1.2.3.4", some "UA", "u1", shaFx [3, 3], none, 5, 7200005⟩],
        [⟨shaFx [4, 4], "sid", 5, 1200005⟩]⟩,
      [⟨"pw:H", true, 300005⟩]) := by
  decide

/-- Claim C3: consumeVerificationCode fails with CODE-NOT-FOUND when no
stored digest matches the hash of the raw secret, with CODE_CONSUMED when
consumedMs is non-null, with RESEND when invalidatedMs is non-null, with
RESEND when the code is expired, with RESEND when the caller state differs
from the stored one — in exactly that order — and otherwise succeeds,
stamping consumedMs with the current time and returning the pre-consumption
record (a stored record, consumedMs still null). -/
theorem consume_error_cases (sha256 : List Nat → List Nat) (db : Db) (now : Nat)
    (code : List Nat) (tok : Option String) :
    ((∀ v ∈ db.codes, v.codeSha256 ≠ sha256 code) →
      consumeVerificationCode sha256 db now code tok =
        .error (.badRequest "The verification code you\x27ve provided doesn\x27t exist." "CODE-NOT-FOUND"))
    ∧ ∀ v, db.codes.find? (fun w => w.codeSha256 == sha256 code) = some v →
      ((v.consumedMs ≠ none →
          consumeVerificationCode sha256 db now code tok =
            .error (.badRequest "This verification code has already been consumed! You don\x27t need to do anything else." "CODE_CONSUMED"))
      ∧ (v.consumedMs = none → v.invalidatedMs ≠ none →
          consumeVerificationCode sha256 db now code tok =
            .error (.badRequest "This verification code has been invalidated. Please try requesting another email." "RESEND"))
      ∧ (v.consumedMs = none → v.invalidatedMs = none → v.expiresMs < now →
          consumeVerificationCode sha256 db now code tok =
            .error (.badRequest "This verification code has expired. Please try requesting another email." "RESEND"))
      ∧ (v.consumedMs = none → v.invalidatedMs = none → ¬ v.expiresMs < now →
          v.userGeneratedToken ≠ tok →
          consumeVerificationCode sha256 db now code tok =
            .error (.badRequest "The state parameter you\x27ve passed does not match with the one used when creating this authentication code. Please try again." "RESEND"))
      ∧ (v.consumedMs = none → v.invalidatedMs = none → ¬ v.expiresMs < now →
          v.userGeneratedToken = tok →
          consumeVerificationCode sha256 db now code tok =
            .ok (v, consumeWrite db now v.codeSha256)
          ∧ v ∈ db.codes
          ∧ ∀ w ∈ (consumeWrite db now v.codeSha256).codes,
              w.codeSha256 = v.codeSha256 → w.consumedMs = some now)) := by
  constructor
  · intro h
    have hfind : db.codes.find? (fun w => w.codeSha256 == sha256 code) = none := by
      rw [List.find?_eq_none]
      intro x hx
      simpa using h x hx
    simp [consumeVerificationCode, consumeChecks, hfind]
  · intro v hv
    have hmem : v ∈ db.codes := List.mem_of_find?_eq_some hv
    refine ⟨?_, ?_, ?_, ?_, ?_⟩
    · intro hc
      simp [consumeVerificationCode, consumeChecks, hv, hc]
    · intro hc hi
      simp [consumeVerificationCode, consumeChecks, hv, hc, hi]
    · intro hc hi he
      simp [consumeVerificationCode, consumeChecks, hv, hc, hi, he]
    · intro hc hi he ht
      simp [consumeVerificationCode, consumeChecks, hv, hc, hi, he, ht]
    · intro hc hi he ht
      refine ⟨?_, hmem, ?_⟩
      · simp [consumeVerificationCode, consumeChecks, hv, hc, hi, he, ht]
      · intro w hw hws
        simp only [consumeWrite] at hw
        rcases List.mem_map.mp hw with ⟨u, _, rfl⟩
        by_cases hb : u.codeSha256 = v.codeSha256
        · simp [hb]
        · exfalso
          simp [hb] at hws

/-- Witness for claim C3: a concrete successful consumption, obtained by
applying consume_error_cases. -/
theorem consume_error_cases_witness :
    consumeVerificationCode shaFx dbAliceFx 5 [1, 2] (some "st") =
      .ok (aliceCodeFx, consumeWrite dbAliceFx 5 aliceCodeFx.codeSha256)
    ∧ aliceCodeFx ∈ dbAliceFx.codes
    ∧ ∀ w ∈ (consumeWrite dbAliceFx 5 aliceCodeFx.codeSha256).codes,
        w.codeSha256 = aliceCodeFx.codeSha256 → w.consumedMs = some 5 :=
  ((consume_error_cases shaFx dbAliceFx 5 [1, 2] (some "st")).2 aliceCodeFx
    (by decide)).2.2.2.2 rfl rfl (by decide) rfl

/-- Claim C10: invalidateVerificationCodesFor leaves every other table
unchanged, preserves the number and order of verification codes, and
rewrites a row exactly when it matches the type and email and has both
consumedMs and invalidatedMs null — in which case only invalidatedMs
changes, to the call timestamp; every other row, in particular every
consumed or already-invalidated one, is returned untouched. -/
theorem invalidate_frame (db : Db) (now : Nat) (ty em : String) :
    (invalidateVerificationCodesFor db now ty em).users = db.users
    ∧ (invalidateVerificationCodesFor db now ty em).loginEmails = db.loginEmails
    ∧ (invalidateVerificationCodesFor db now ty em).sessions = db.sessions
    ∧ (invalidateVerificationCodesFor db now ty em).sessionTokens = db.sessionTokens
    ∧ (invalidateVerificationCodesFor db now ty em).codes.length = db.codes.length
    ∧ ∀ (i : Nat) (v : VerificationCode), db.codes[i]? = some v →
        ∃ v', (invalidateVerificationCodesFor db now ty em).codes[i]? = some v'
          ∧ (v.type = ty ∧ v.email = em ∧ v.invalidatedMs = none ∧ v.consumedMs = none →
              v' = { v with invalidatedMs := some now })
          ∧ (¬(v.type = ty ∧ v.email = em ∧ v.invalidatedMs = none ∧ v.consumedMs = none) →
              v' = v)
          ∧ v'.codeSha256 = v.codeSha256 ∧ v'.type = v.type ∧ v'.email = v.email
          ∧ v'.userGeneratedToken = v.userGeneratedToken ∧ v'.createdMs = v.createdMs
          ∧ v'.expiresMs = v.expiresMs ∧ v'.consumedMs = v.consumedMs := by
  refine ⟨rfl, rfl, rfl, rfl, by simp [invalidateVerificationCodesFor], ?_⟩
  intro i v hv
  refine ⟨if v.type == ty && v.email == em && v.invalidatedMs == none && v.consumedMs == none
      then { v with invalidatedMs := some now } else v, ?_, ?_, ?_, ?_⟩
  · simp [invalidateVerificationCodesFor, List.getElem?_map, hv]
  · intro h
    obtain ⟨h1, h2, h3, h4⟩ := h
    simp [h1, h2, h3, h4]
  · intro hneg
    by_cases hb : (v.type == ty && v.email == em && v.invalidatedMs == none
        && v.consumedMs == none) = true
    · exfalso
      apply hneg
      rw [Bool.and_eq_true, Bool.and_eq_true, Bool.and_eq_true] at hb
      exact ⟨eq_of_beq hb.1.1.1, eq_of_beq hb.1.1.2, eq_of_beq hb.1.2, eq_of_beq hb.2⟩
    · simp [hb]
  · by_cases hb : (v.type == ty && v.email == em && v.invalidatedMs == none
        && v.consumedMs == none) = true
    · simp [hb]
    · simp [hb]

/-- Witness for claim C10: the frame property applied to a concrete
database at index 0. -/
theorem invalidate_frame_witness :
    ∃ v', (invalidateVerificationCodesFor dbAliceFx 9 "login" "a@b.com").codes[0]? = some v'
      ∧ (aliceCodeFx.type = "login" ∧ aliceCodeFx.email = "a@b.com"
          ∧ aliceCodeFx.invalidatedMs = none ∧ aliceCodeFx.consumedMs = none →
          v' = { aliceCodeFx with invalidatedMs := some 9 })
      ∧ (¬(aliceCodeFx.type = "login" ∧ aliceCodeFx.email = "a@b.com"
          ∧ aliceCodeFx.invalidatedMs = none ∧ aliceCodeFx.consumedMs = none) →
          v' = aliceCodeFx)
      ∧ v'.codeSha256 = aliceCodeFx.codeSha256 ∧ v'.type = aliceCodeFx.type
      ∧ v'.email = aliceCodeFx.email ∧ v'.userGeneratedToken = aliceCodeFx.userGeneratedToken
      ∧ v'.createdMs = aliceCodeFx.createdMs ∧ v'.expiresMs = aliceCodeFx.expiresMs
      ∧ v'.consumedMs = aliceCodeFx.consumedMs :=
  (invalidate_frame dbAliceFx 9 "login" "a@b.com").2.2.2.2.2 0 aliceCodeFx (by decide)

/-- Claim C8: compareSecret is total — its embedding returns a boolean for
every input, because the compute branch yields false both for a falsy
secret or stored hash and for a rejected (malformed digest) bcrypt
comparison — and the result is obtained through the cache collaborator
under the literal key of secret and hash joined by a colon with a
time-to-live of 300000 ms. -/
theorem compareSecret_contract (bcrypt : String → String → Except String Bool)
    (cache : Cache) (now : Nat) (secret secretHash : Option String) :
    compareSecret bcrypt cache now secret secretHash =
      cacheGet cache now (compareSecretKey secret secretHash)
        (compareSecretCompute bcrypt secret secretHash) 300000
    ∧ (secret = none ∨ secretHash = none →
        compareSecretCompute bcrypt secret secretHash = false)
    ∧ (∀ msg, bcrypt (secret.getD "") (secretHash.getD "") = .error msg →
        compareSecretCompute bcrypt secret secretHash = false) := by
  refine ⟨rfl, ?_, ?_⟩
  · rintro (rfl | rfl) <;> simp [compareSecretCompute, jsFalsy]
  · intro msg hmsg
    unfold compareSecretCompute
    split
    · rfl
    · simp [hmsg]

/-- Witness for claim C8: a null secret computes to false, by applying
compareSecret_contract. -/
theorem compareSecret_contract_witness :
    compareSecretCompute bcryptFx none (some "H") = false :=
  (compareSecret_contract bcryptFx [] 0 none (some "H")).2.1 (Or.inl rfl)

/-- Claim C9: for a user whose stored passwordHash is null, the compute
branch of compareSecret returns false, so the password step raises
Unauthorized for every supplied password and never reaches session issuance
or code minting (the error is thrown before any write).  The cache
hypothesis says no live entry exists for the key of this comparison, so the
result comes from the compute branch. -/
theorem null_hash_never_authenticates (sha256 : List Nat → List Nat)
    (bcrypt : String → String → Except String Bool) (rand : FlowRand)
    (cfg : AccountsModuleConfig) (db : Db) (cache : Cache) (now : Nat)
    (email pw tok : String) (ua : Option String) (ip : String)
    (u : User) (le : LoginEmail) :
    getUserByEmail db email = some (u, le) →
    u.passwordHash = none →
    (∀ e ∈ cache, e.key = compareSecretKey (some pw) none → ¬ now < e.expiresMs) →
    compareSecretCompute bcrypt (some pw) none = false
    ∧ processPasswordStep sha256 bcrypt rand cfg db cache now email pw tok ua ip =
        .error (.unauthorized "The password you\x27ve supplied is not correct.") := by
  intro hu hph hcache
  have hcompute : compareSecretCompute bcrypt (some pw) none = false := by
    simp [compareSecretCompute, jsFalsy]
  refine ⟨hcompute, ?_⟩
  have hfind : List.find?
      (fun e => e.key == compareSecretKey (some pw) none && decide (now < e.expiresMs))
      cache = none := by
    rw [List.find?_eq_none]
    intro e he
    simp only [Bool.and_eq_true, beq_iff_eq, decide_eq_true_eq, not_and]
    intro hk
    exact hcache e he hk
  simp [processPasswordStep, getUserByEmailThrw, hu, hph, compareSecret, cacheGet,
    hfind, hcompute]

/-- Witness for claim C9: the passwordless user carolFx is rejected with
Unauthorized, by applying null_hash_never_authenticates. -/
theorem null_hash_never_authenticates_witness :
    compareSecretCompute bcryptFx (some "anything") none = false
    ∧ processPasswordStep shaFx bcryptFx randFx cfgFx dbCarolFx [] 5
        "c@b.com" "anything" "st" (some "UA") "1.2.3.4" =
      .error (.unauthorized "The password you\x27ve supplied is not correct.") :=
  null_hash_never_authenticates shaFx bcryptFx randFx cfgFx dbCarolFx [] 5
    "c@b.com" "anything" "st" (some "UA") "1.2.3.4" carolFx carolEmailFx
    (by decide) rfl (by intro e he; cases he)

/-- Claim C7 (amended): a bad password on a registered email always raises
Unauthorized with one fixed wording, but an unknown email raises NotFound
with a different wording that embeds the email, so the two rejections are
distinguishable. -/
theorem passwordStep_rejections (sha256 : List Nat → List Nat)
    (bcrypt : String → String → Except String Bool) (rand : FlowRand)
    (cfg : AccountsModuleConfig) (db : Db) (cache : Cache) (now : Nat)
    (email pw tok : String) (ua : Option String) (ip : String) :
    (getUserByEmail db email = none →
      processPasswordStep sha256 bcrypt rand cfg db cache now email pw tok ua ip =
        .error (.notFound ("No users with email " ++ email
          ++ " exist in our system. Try signing up.")))
    ∧ ∀ u le, getUserByEmail db email = some (u, le) →
        (compareSecret bcrypt cache now (some pw) u.passwordHash).1 = false →
        processPasswordStep sha256 bcrypt rand cfg db cache now email pw tok ua ip =
          .error (.unauthorized "The password you\x27ve supplied is not correct.") := by
  constructor
  · intro h
    simp [processPasswordStep, getUserByEmailThrw, h]
  · intro u le hu hc
    simp [processPasswordStep, getUserByEmailThrw, hu, hc]

/-- Witness for claim C7: a concrete bad-password rejection, by applying
passwordStep_rejections. -/
theorem passwordStep_rejections_witness :
    processPasswordStep shaFx bcryptFx randFx cfgFx dbAlicePwFx [] 5
      "a@b.com" "bad" "st" (some "UA") "1.2.3.4" =
      .error (.unauthorized "The password you\x27ve supplied is not correct.") :=
  (passwordStep_rejections shaFx bcryptFx randFx cfgFx dbAlicePwFx [] 5
    "a@b.com" "bad" "st" (some "UA") "1.2.3.4").2 aliceFx aliceEmailFx
    (by decide) (by decide)

/-- Counterexample to claim C7 as stated: two password-step runs that
differ only in whether the supplied email is registered produce caller
visible rejections of different kinds and wordings — Unauthorized with a
fixed message versus NotFound with a message embedding the email — so the
rejection is not identical regardless of email existence. -/
theorem passwordStep_distinguishes_unknown_email :
    processPasswordStep shaFx bcryptFx randFx cfgFx dbAlicePwFx [] 5
      "a@b.com" "bad" "st" (some "UA") "1.2.3.4" =
      .error (.unauthorized "The password you\x27ve supplied is not correct.")
    ∧ processPasswordStep shaFx bcryptFx randFx cfgFx ⟨[aliceFx], [], [], [], []⟩ [] 5
      "a@b.com" "bad" "st" (some "UA") "1.2.3.4" =
      .error (.notFound "No users with email a@b.com exist in our system. Try signing up.")
    ∧ Err.unauthorized "The password you\x27ve supplied is not correct." ≠
        Err.notFound "No users with email a@b.com exist in our system. Try signing up." := by
  decide

/-- Counterexample to claim C1 as stated: a Code-step invocation in which
consumeVerificationCode succeeds — the code is valid and the caller state
matches — yet the flow result is another step (tagged "step", naming the
totp step and carrying a freshly minted code), not a session, because the
owning user has the second factor enabled. -/
theorem codeStep_2fa_returns_step_not_session :
    exceptIsOk (consumeVerificationCode shaFx dbBobFx 5 [1, 2] (some "st")) = true
    ∧ respOfCodeStep (processCodeStep shaFx randFx cfgFx dbBobFx 5 [1, 2] "st"
        (some "UA") "1.2.3.4") = some (.step "totp" [9, 9] "st") := by
  decide

/-- Claim C1 (amended): when consumeVerificationCode succeeds, the Code
step loads the user owning the email the code was issued for; if that
user has the second factor disabled it returns a session — a result tagged
"session" carrying the two raw tokens — but if the second factor is
enabled it mints a new login code and returns a totp step instead, so the
Code step that redeems the challenge issued by a Password step with the
second factor enabled terminates in another step, not in a session. -/
theorem codeStep_branches (sha256 : List Nat → List Nat) (rand : FlowRand)
    (cfg : AccountsModuleConfig) (db : Db) (now : Nat) (code : List Nat)
    (tok : String) (ua : Option String) (ip : String)
    (v : VerificationCode) (db1 : Db) (u : User) (le : LoginEmail) :
    consumeVerificationCode sha256 db now code (some tok) = .ok (v, db1) →
    getUserByEmail db1 v.email = some (u, le) →
    (¬ u.twofa = 1 →
      processCodeStep sha256 rand cfg db now code tok ua ip =
        .ok (.session rand.sess.sessionToken rand.sess.refreshToken,
          (generateSession sha256 rand.sess cfg db1 now u.id ua (some ip)).2))
    ∧ (u.twofa = 1 →
      processCodeStep sha256 rand cfg db now code tok ua ip =
        .ok (.step "totp" rand.codeBytes tok,
          (generateVerificationCode sha256 rand.codeBytes db1 now "login" v.email
            (some tok) (now + 1000 * 60 * cfg.loginCodeMin)).2)) := by
  intro hcons hu
  constructor
  · intro h2
    simp [processCodeStep, hcons, getUserByEmailThrw, hu, h2, generateSession]
  · intro h2
    simp [processCodeStep, hcons, getUserByEmailThrw, hu, h2, generateVerificationCode]

/-- Witness for claim C1: with the second factor disabled, a successful
consumption ends in a session, by applying codeStep_branches. -/
theorem codeStep_branches_witness :
    processCodeStep shaFx randFx cfgFx dbAliceFx 5 [1, 2] "st" (some "UA") "1.2.3.4" =
      .ok (.session randFx.sess.sessionToken randFx.sess.refreshToken,
        (generateSession shaFx randFx.sess cfgFx
          (consumeWrite dbAliceFx 5 aliceCodeFx.codeSha256) 5 aliceFx.id
          (some "UA") (some "1.2.3.4")).2) :=
  (codeStep_branches shaFx randFx cfgFx dbAliceFx 5 [1, 2] "st" (some "UA") "1.2.3.4"
    aliceCodeFx (consumeWrite dbAliceFx 5 aliceCodeFx.codeSha256) aliceFx aliceEmailFx
    (by decide) (by decide)).1 (by decide)

/-- Counterexample to claim C6 as stated: the value returned by
generateSession does not contain the session id.  Two runs that differ
only in the uuid drawn for the session id persist Session rows with
different ids yet return identical responses, so the response cannot carry
the session id. -/
theorem generateSession_response_lacks_session_id :
    (generateSession shaFx ⟨[3, 3], [4, 4], "sidA"⟩ cfgFx dbAlicePwFx 5 "u1"
        (some "UA") (some "1.2.3.4")).1 =
      (generateSession shaFx ⟨[3, 3], [4, 4], "sidB"⟩ cfgFx dbAlicePwFx 5 "u1"
        (some "UA") (some "1.2.3.4")).1
    ∧ (generateSession shaFx ⟨[3, 3], [4, 4], "sidA"⟩ cfgFx dbAlicePwFx 5 "u1"
        (some "UA") (some "1.2.3.4")).2.sessions ≠
      (generateSession shaFx ⟨[3, 3], [4, 4], "sidB"⟩ cfgFx dbAlicePwFx 5 "u1"
        (some "UA") (some "1.2.3.4")).2.sessions := by
  decide

/-- Claim C6 (amended): session issuance persists a Session row keyed by
the digest of the refresh secret with an hours-scale expiry and a
SessionToken row keyed by the digest of the access secret with a
minutes-scale expiry linked to that session, touches no other table,
never persists either raw secret (the digest function is the only use of
them in the stored rows, and distinct draws give distinct digests when the
digest function is injective), and returns the two raw secrets exactly
once in a result tagged "session" — without the session id. -/
theorem generateSession_rows (sha256 : List Nat → List Nat) (rand : SessionRand)
    (cfg : AccountsModuleConfig) (db : Db) (now : Nat) (uid : String)
    (ua ip : Option String) :
    (generateSession sha256 rand cfg db now uid ua ip).1 =
      .session rand.sessionToken rand.refreshToken
    ∧ (generateSession sha256 rand cfg db now uid ua ip).2.sessions =
        db.sessions ++ [⟨rand.sessionId, jsOrNull ua, ip, uid,
          sha256 rand.refreshToken, none, now, now + 1000 * 60 * 60 * cfg.sessionHour⟩]
    ∧ (generateSession sha256 rand cfg db now uid ua ip).2.sessionTokens =
        db.sessionTokens ++ [⟨sha256 rand.sessionToken, rand.sessionId, now,
          now + 1000 * 60 * cfg.sessionTokenMin⟩]
    ∧ (generateSession sha256 rand cfg db now uid ua ip).2.users = db.users
    ∧ (generateSession sha256 rand cfg db now uid ua ip).2.codes = db.codes
    ∧ (generateSession sha256 rand cfg db now uid ua ip).2.loginEmails = db.loginEmails
    ∧ (Function.Injective sha256 → rand.refreshToken ≠ rand.sessionToken →
        sha256 rand.refreshToken ≠ sha256 rand.sessionToken) := by
  refine ⟨rfl, rfl, rfl, rfl, rfl, rfl, ?_⟩
  intro hinj hne h
  exact hne (hinj h)

/-- Witness for claim C6: with the injective concrete digest function the
two distinct draws have distinct digests, by applying
generateSession_rows. -/
theorem generateSession_rows_witness :
    shaFx randFx.sess.refreshToken ≠ shaFx randFx.sess.sessionToken :=
  (generateSession_rows shaFx randFx.sess cfgFx dbAlicePwFx 5 "u1" (some "UA")
    (some "1.2.3.4")).2.2.2.2.2.2
    (fun _ _ h => (List.cons.inj h).2) (by decide)

/-- Counterexample to claim C4 as stated: not every code-minting path runs
the invalidation first.  The second-factor branch of the password step
persists a fresh login code via generateVerificationCode without first
invalidating outstanding codes, so starting from a database holding one
valid login code for the pair, the step succeeds and leaves two
simultaneously valid codes for that type and email. -/
theorem secondFactor_mints_without_invalidating :
    countValid dbBobFx 5 "login" "b@b.com" = 1
    ∧ exceptIsOk (processPasswordStep shaFx bcryptFx randFx cfgFx dbBobFx [] 5
        "b@b.com" "pw" "st" (some "UA") "1.2.3.4") = true
    ∧ countValid (dbOfPasswordStep (processPasswordStep shaFx bcryptFx randFx cfgFx
        dbBobFx [] 5 "b@b.com" "pw" "st" (some "UA") "1.2.3.4") dbBobFx)
        5 "login" "b@b.com" = 2 := by
  decide

/-- Claim C4 (amended): invalidateVerificationCodesFor stamps invalidatedMs
with the call timestamp on every currently-valid code of the type and
email; the email-sending minting path (sendLoginOrVerCodeEmail) runs the
invalidation before persisting the replacement code; and after
invalidate-then-generate exactly one valid code exists for the pair.  The
second-factor challenge paths mint without prior invalidation (see the
counterexample), so the at-most-one invariant does not extend to them. -/
theorem invalidate_then_generate_unique (sha256 : List Nat → List Nat)
    (codeBytes : List Nat) (db : Db) (now : Nat) (email ty : String)
    (tok : Option String) (expiresMs : Nat) :
    (∀ v ∈ db.codes, v.type = ty → v.email = email → v.invalidatedMs = none →
        v.consumedMs = none →
        { v with invalidatedMs := some now } ∈
          (invalidateVerificationCodesFor db now ty email).codes)
    ∧ (∀ res, sendLoginOrVerCodeEmail sha256 codeBytes db now email ty tok expiresMs
          = .ok res →
        res.2 = (generateVerificationCode sha256 codeBytes
          (invalidateVerificationCodesFor db now ty email) now ty email tok expiresMs).2)
    ∧ (¬ expiresMs < now →
        countValid (generateVerificationCode sha256 codeBytes
          (invalidateVerificationCodesFor db now ty email) now ty email tok expiresMs).2
          now ty email = 1) := by
  refine ⟨?_, ?_, ?_⟩
  · intro v hv h1 h2 h3 h4
    simp only [invalidateVerificationCodesFor]
    refine List.mem_map.mpr ⟨v, hv, ?_⟩
    simp [h1, h2, h3, h4]
  · intro res h
    unfold sendLoginOrVerCodeEmail at h
    cases hube : getUserByEmail db email with
    | none => rw [hube] at h; cases h
    | some p =>
      rw [hube] at h
      cases h
      rfl
  · intro hexp
    simp only [generateVerificationCode, saveVerificationCode, countValid,
      invalidateVerificationCodesFor, List.filter_append]
    rw [List.length_append]
    have hnil : List.filter
        (fun v => v.type == ty && v.email == email && isValidCode now v)
        (db.codes.map (fun v =>
          if v.type == ty && v.email == email && v.invalidatedMs == none
              && v.consumedMs == none
          then { v with invalidatedMs := some now } else v)) = [] := by
      rw [List.filter_eq_nil_iff]
      intro w hw
      rcases List.mem_map.mp hw with ⟨u, _, rfl⟩
      cases hb : (u.type == ty && u.email == email && u.invalidatedMs == none
          && u.consumedMs == none) with
      | true => simp [hb, isValidCode]
      | false =>
        simp only [hb, Bool.false_eq_true, if_false]
        intro hcon
        rw [Bool.and_eq_true, Bool.and_eq_true] at hcon
        have hvalid := hcon.2
        unfold isValidCode at hvalid
        rw [Bool.and_eq_true, Bool.and_eq_true] at hvalid
        have hall : (u.type == ty && u.email == email && u.invalidatedMs == none
            && u.consumedMs == none) = true := by
          rw [Bool.and_eq_true, Bool.and_eq_true, Bool.and_eq_true]
          exact ⟨⟨⟨hcon.1.1, hcon.1.2⟩, hvalid.1.2⟩, hvalid.1.1⟩
        rw [hb] at hall
        exact Bool.false_ne_true hall
    rw [hnil]
    simp [isValidCode, hexp]

/-- Witness for claim C4: a concrete invalidate-then-generate run leaves
exactly one valid code, by applying invalidate_then_generate_unique. -/
theorem invalidate_then_generate_unique_witness :
    countValid (generateVerificationCode shaFx [9, 9]
      (invalidateVerificationCodesFor dbAliceFx 5 "login" "a@b.com") 5 "login"
      "a@b.com" (some "st") 700).2 5 "login" "a@b.com" = 1 :=
  (invalidate_then_generate_unique shaFx [9, 9] dbAliceFx 5 "a@b.com" "login"
    (some "st") 700).2.2 (by decide)

end AccountsModule
